import Mathlib

/-!
Verification of the attendance-tracking backend core: the attendance
state machine (markAttendance and the Attendance model), the login
lockout policy (findByCredentials / incLoginAttempts on the User model),
multi-tenant admin authorization (performAdminAction, updateAttendance,
deleteAttendance, getOrganizationUsers), the password-reset token flow
(createPasswordResetToken / resetPassword), invite-code generation and
resolution (generateInviteCode / getOrganizationByInviteCode) and face
enrollment (addFaceDescriptor).

Conventions of the embedding: times are milliseconds since the epoch
(JS Date subtraction yields milliseconds), modelled as Int; Mongo
ObjectIds are Nat; bcrypt comparison and sha256 hashing are abstracted
as a Bool outcome and an opaque-to-the-model String function,
respectively.
-/

namespace FaceRec

abbrev OrgId := Nat
abbrev UserId := Nat
abbrev Time := Int

/-! ### Attendance model (src/models/Attendance.js) -/

/-- Attendance `type` enum: ['check-in', 'check-out', 'break-start', 'break-end']. -/
inductive AttType
  | checkIn
  | checkOut
  | breakStart
  | breakEnd
deriving DecidableEq, Repr

/-- Attendance `status` enum: ['pending', 'approved', 'rejected', 'auto-approved'],
default 'auto-approved'. -/
inductive AttStatus
  | pending
  | approved
  | rejected
  | autoApproved
deriving DecidableEq, Repr

/-- The schema fields of an Attendance document that the verified operations
read or write.  Defaults mirror the schema defaults (status 'auto-approved',
workingHours/breakTime/overtime 0, isOfflineEntry false); fields without a
schema default carry no Lean default and are always set explicitly at creation.
`organization` is kept as an Option to mirror the denormalized copy of the
(optional) user.organization reference.  Note the schema stores a free-text
field named `notes` (and `adminNotes`) and has no `note`, `isApproved`,
`modifiedBy` or `modifiedAt` paths. -/
structure AttEvent where
  user : UserId
  organization : Option OrgId
  date : Time
  checkInTime : Time
  checkOutTime : Option Time := none
  type : AttType
  status : AttStatus := .autoApproved
  workingHours : Int := 0
  breakTime : Int := 0
  overtime : Int := 0
  isOfflineEntry : Bool := false
  notes : Option String := none
  adminNotes : Option String := none
deriving DecidableEq, Repr

/-- Top-level paths of AttendanceSchema (src/models/Attendance.js lines 3-125).
Under mongoose's default strict mode only these paths are persisted by save. -/
def attendanceSchemaPaths : List String :=
  ["user", "organization", "date", "checkInTime", "checkOutTime", "type",
   "recognitionMethod", "faceConfidence", "faceImage", "location", "ipAddress",
   "userAgent", "status", "approvedBy", "approvedDate", "rejectionReason",
   "workingHours", "breakTime", "overtime", "isOfflineEntry", "syncedAt",
   "deviceId", "notes", "adminNotes"]

/-- Attendance.calculateWorkingHours (Attendance.js 197-203):
if there is no checkOut, 0; otherwise max(0, floor((checkOut - checkIn)/60000) - breakTime).
JS Math.floor on the real quotient is Int.fdiv for the positive divisor 1000*60. -/
def calculateWorkingHours (checkIn : Time) (checkOut : Option Time) (breakTime : Int) : Int :=
  match checkOut with
  | none => 0
  | some c =>
    let diffInMs := c - checkIn
    let totalMinutes := Int.fdiv diffInMs (1000 * 60)
    max 0 (totalMinutes - breakTime)

/-- Attendance method markCheckOut (Attendance.js 206-226): sets checkOutTime and
type, stores the computed working minutes, and records overtime only when the
total exceeds the 8-hour (480-minute) standard day. -/
def markCheckOut (a : AttEvent) (checkOutTime : Time) : AttEvent :=
  let totalMinutes := calculateWorkingHours a.checkInTime (some checkOutTime) a.breakTime
  let a' := { a with checkOutTime := some checkOutTime
                     type := AttType.checkOut
                     workingHours := totalMinutes }
  if totalMinutes > 8 * 60 then { a' with overtime := totalMinutes - 8 * 60 } else a'

/-! ### User model (src/unnamed/part_007, the mongoose User schema) -/

/-- User `role` enum: ['employee', 'admin', 'hr', 'super-admin']. -/
inductive Role
  | employee
  | admin
  | hr
  | superAdmin
deriving DecidableEq, Repr

/-- The User document fields the verified operations touch.  Defaults mirror the
schema defaults (role 'employee', isActive true, isApproved false, faceEnrolled
false, counters 0); `password` abstracts the bcrypt hash. -/
structure UserDoc where
  id : UserId := 0
  role : Role := .employee
  organization : Option OrgId := none
  password : String := ""
  isActive : Bool := true
  isApproved : Bool := false
  approvedBy : Option UserId := none
  approvedDate : Option Time := none
  faceDescriptors : List (List Int) := []
  faceImages : List String := []
  faceEnrolled : Bool := false
  faceEnrollmentAttempts : Nat := 0
  resetPasswordToken : Option String := none
  resetPasswordExpires : Option Time := none
  loginAttempts : Nat := 0
  lockUntil : Option Time := none
  lastLogin : Option Time := none
deriving DecidableEq, Repr

/-- Virtual isLocked (part_007 172-174): lockUntil is set and strictly in the future. -/
def UserDoc.isLocked (u : UserDoc) (now : Time) : Bool :=
  match u.lockUntil with
  | some l => decide (now < l)
  | none => false

/-- Method incLoginAttempts (part_007 195-212): an expired lock restarts the counter
at 1 and clears the lock; otherwise the counter is incremented and, when it reaches
5 on an unlocked account, a 2-hour lock is set. -/
def UserDoc.incLoginAttempts (u : UserDoc) (now : Time) : UserDoc :=
  match u.lockUntil with
  | some l =>
    if decide (l < now) then
      { u with lockUntil := none, loginAttempts := 1 }
    else
      let u' := { u with loginAttempts := u.loginAttempts + 1 }
      if u.loginAttempts + 1 ≥ 5 && !(u.isLocked now) then
        { u' with lockUntil := some (now + 2 * 60 * 60 * 1000) }
      else u'
  | none =>
    let u' := { u with loginAttempts := u.loginAttempts + 1 }
    if u.loginAttempts + 1 ≥ 5 && !(u.isLocked now) then
      { u' with lockUntil := some (now + 2 * 60 * 60 * 1000) }
    else u'

/-- Outcome of a credential check: the three reachable responses of
findByCredentials for an account that exists. -/
inductive AuthResult
  | invalidCredentials
  | accountLocked
  | success
deriving DecidableEq, Repr

/-- Static findByCredentials (part_007 254-282), for an account already found by
email.  `pwOk` abstracts the outcome of bcrypt.compare against the stored hash.
A locked account fails before the password is even compared (no attempt consumed);
a mismatch increments the attempt counter; a match resets the counter (the reset
update is only issued when the counter is positive) and stamps lastLogin. -/
def findByCredentials (u : UserDoc) (pwOk : Bool) (now : Time) : AuthResult × UserDoc :=
  if u.isLocked now then (.accountLocked, u)
  else if !pwOk then (.invalidCredentials, u.incLoginAttempts now)
  else
    let u' := if u.loginAttempts > 0 then { u with loginAttempts := 0, lockUntil := none } else u
    (.success, { u' with lastLogin := some now })

/-- Method addFaceDescriptor (part_007 222-228): pushes the descriptor and marks
the user enrolled only once at least 3 descriptors are stored. -/
def UserDoc.addFaceDescriptor (u : UserDoc) (descriptor : List Int) : UserDoc :=
  let u' := { u with faceDescriptors := u.faceDescriptors ++ [descriptor] }
  if u'.faceDescriptors.length ≥ 3 then { u' with faceEnrolled := true } else u'

/-- Method clearFaceData (part_007 231-237). -/
def UserDoc.clearFaceData (u : UserDoc) : UserDoc :=
  { u with faceDescriptors := [], faceImages := [], faceEnrolled := false,
           faceEnrollmentAttempts := 0 }

/-- Method createPasswordResetToken (part_007 240-251): stores the sha256 hash of
the fresh random token together with a 10-minute expiry, and returns the raw
token.  `sha256` is the hash function, abstracted; `resetToken` is the raw
random token produced by crypto.randomBytes. -/
def UserDoc.createPasswordResetToken (sha256 : String → String) (u : UserDoc)
    (resetToken : String) (now : Time) : UserDoc × String :=
  ({ u with resetPasswordToken := some (sha256 resetToken)
            resetPasswordExpires := some (now + 10 * 60 * 1000) },
   resetToken)

/-! ### Organization model (src/unnamed/part_008) -/

/-- The Organization fields the verified operations touch. -/
structure Org where
  id : OrgId := 0
  name : String := ""
  inviteCode : String := ""
  isActive : Bool := true
deriving DecidableEq, Repr

/-- Character pool of generateInviteCode (part_008 166-175):
'ABCDEFGHIJKLMNOPQRSTUVWXYZ0123456789'. -/
def inviteCodeChars : List Char := "ABCDEFGHIJKLMNOPQRSTUVWXYZ0123456789".toList

theorem inviteCodeChars_length : (36 : Nat) = inviteCodeChars.length := by decide

/-- Method generateInviteCode (part_008 166-175): builds an 8-character code by
picking chars.charAt(Math.floor(Math.random() * chars.length)) eight times,
stores it in this.inviteCode and returns it.  The eight random draws are the
parameter `rand`; Math.floor(Math.random() * 36) always lands in [0, 36). -/
def Org.generateInviteCode (o : Org) (rand : Fin 8 → Fin 36) : Org × String :=
  let result := String.mk
    ((List.finRange 8).map fun i => inviteCodeChars.get (Fin.cast inviteCodeChars_length (rand i)))
  ({ o with inviteCode := result }, result)

/-! ### Controller-level helpers -/

/-- ObjectId comparison `x.equals(y)` as the controllers use it: a missing side
compares unequal (`equals(undefined)` is false; the optional-chaining form
`x?.equals(y)` yields a falsy result when x is absent).  Every flow the claims
exercise has the left side present. -/
def objIdEquals : Option OrgId → Option OrgId → Bool
  | some a, some b => a == b
  | _, _ => false

/-! ### markAttendance (src/controllers/UserController.js 512-615) -/

/-- Body of POST /api/attendance/mark after Joi validation: `type` is restricted
by the schema to 'check-in' | 'check-out'; isOffline defaults to false;
offlineTimestamp is optional. -/
inductive ReqType
  | checkIn
  | checkOut
deriving DecidableEq, Repr

structure MarkReq where
  type : ReqType
  isOffline : Bool := false
  offlineTimestamp : Option Time := none
deriving DecidableEq, Repr

/-- Sort key of `.sort(\x7b checkInTime: -1 \x7d)`: descending checkInTime. -/
def byCheckInDesc (a b : AttEvent) : Prop := b.checkInTime ≤ a.checkInTime

instance : DecidableRel byCheckInDesc := fun a b =>
  (inferInstance : Decidable (b.checkInTime ≤ a.checkInTime))

instance : IsTotal AttEvent byCheckInDesc :=
  ⟨fun a b => (le_total b.checkInTime a.checkInTime).elim Or.inl Or.inr⟩

instance : IsTrans AttEvent byCheckInDesc :=
  ⟨fun _ _ _ hab hbc => le_trans hbc hab⟩

/-- The query `Attendance.find(\x7b user, checkInTime: \x7b $gte: startOfDay,
$lt: endOfDay \x7d \x7d).sort(\x7b checkInTime: -1 \x7d)` where
endOfDay = startOfDay + 24*60*60*1000. -/
def dayEvents (db : List AttEvent) (uid : UserId) (startOfDay : Time) : List AttEvent :=
  List.insertionSort byCheckInDesc
    (db.filter fun e =>
      e.user == uid && decide (startOfDay ≤ e.checkInTime) &&
        decide (e.checkInTime < startOfDay + 24 * 60 * 60 * 1000))

/-- `existingAttendance.find(att => att.type === 'check-in')` on the descending
list: the most recent check-in of the day. -/
def lastCheckIn (l : List AttEvent) : Option AttEvent :=
  l.find? fun e => e.type == AttType.checkIn

/-- `existingAttendance.find(att => att.type === 'check-out')` on the descending
list: the most recent check-out of the day. -/
def lastCheckOut (l : List AttEvent) : Option AttEvent :=
  l.find? fun e => e.type == AttType.checkOut

/-- Check-in guard (UserController.js 553-562):
`lastCheckIn && (!lastCheckOut || lastCheckOut.checkInTime < lastCheckIn.checkInTime)`. -/
def checkInBlocked (l : List AttEvent) : Bool :=
  match lastCheckIn l, lastCheckOut l with
  | some _, none => true
  | some ci, some co => decide (co.checkInTime < ci.checkInTime)
  | none, _ => false

/-- Check-out guard (UserController.js 563-573):
`!lastCheckIn || (lastCheckOut && lastCheckOut.checkInTime > lastCheckIn.checkInTime)`. -/
def checkOutBlocked (l : List AttEvent) : Bool :=
  match lastCheckIn l, lastCheckOut l with
  | none, _ => true
  | some ci, some co => decide (ci.checkInTime < co.checkInTime)
  | some _, none => false

inductive MarkOutcome
  | notApproved
  | accountInactive
  | alreadyCheckedIn
  | noOpenCheckIn
  | created (e : AttEvent)
deriving DecidableEq, Repr

/-- The Attendance document markAttendance constructs and saves:
checkInTime is `isOffline && offlineTimestamp ? offlineTimestamp : now`, a
check-out mirrors it into checkOutTime, the pre-save hook (Attendance.js
236-242) derives `date` from checkInTime, and every other modelled field keeps
its schema default.  (The request's `note` key is not a schema path - the
schema field is `notes` - so the created document carries no note; location and
faceImage are evidentiary payload the claims do not touch.) -/
def newAttendanceEvent (localMidnight : Time → Time) (u : UserDoc) (req : MarkReq)
    (now : Time) : AttEvent :=
  let cit := if req.isOffline && req.offlineTimestamp.isSome then
               req.offlineTimestamp.getD now
             else now
  { user := u.id
    organization := u.organization
    type := match req.type with
            | .checkIn => AttType.checkIn
            | .checkOut => AttType.checkOut
    checkInTime := cit
    checkOutTime := if req.type == ReqType.checkOut then some cit else none
    date := localMidnight cit
    isOfflineEntry := req.isOffline }

/-- markAttendance (UserController.js 512-615).  `localMidnight` abstracts
`new Date(d.getFullYear(), d.getMonth(), d.getDate())`, the local-midnight
truncation used for the day window.  Gate checks (approval, activity) run
first, then the day's events decide the transition.  On a guard failure the
handler returns before `attendance.save()`, so the store is unchanged. -/
def markAttendance (localMidnight : Time → Time) (u : UserDoc) (req : MarkReq)
    (db : List AttEvent) (now : Time) : MarkOutcome × List AttEvent :=
  if u.isApproved = false then (.notApproved, db)
  else if u.isActive = false then (.accountInactive, db)
  else
    let startOfDay := localMidnight now
    let existing := dayEvents db u.id startOfDay
    let newEvent := newAttendanceEvent localMidnight u req now
    match req.type with
    | .checkIn =>
      if checkInBlocked existing then (.alreadyCheckedIn, db)
      else (.created newEvent, db ++ [newEvent])
    | .checkOut =>
      if checkOutBlocked existing then (.noOpenCheckIn, db)
      else (.created newEvent, db ++ [newEvent])

/-! ### performAdminAction (src/controllers/UserController.js 227-300) -/

/-- Joi-validated `action`: 'approve' | 'reject' | 'activate' | 'deactivate' |
'reset-face'. -/
inductive AdminAction
  | approve
  | reject
  | activate
  | deactivate
  | resetFace
deriving DecidableEq, Repr

inductive AdminOutcome
  | userNotFound
  | crossOrganization
  | selfActionForbidden
  | done (updated : UserDoc)
deriving DecidableEq, Repr

/-- The switch over `action` (UserController.js 266-288). -/
def applyAdminAction (actor target : UserDoc) (action : AdminAction) (now : Time) : UserDoc :=
  match action with
  | .approve => { target with isApproved := true, approvedBy := some actor.id,
                              approvedDate := some now }
  | .reject => { target with isApproved := false, isActive := false }
  | .activate => { target with isActive := true }
  | .deactivate => { target with isActive := false }
  | .resetFace => target.clearFaceData

/-- performAdminAction: looks the target up by id; an org-scoped admin may only
manage users of their own organization (403); 'deactivate'/'reject' on oneself
is rejected; otherwise the action is applied and the target saved. -/
def performAdminAction (actor : UserDoc) (db : List UserDoc) (targetId : UserId)
    (action : AdminAction) (now : Time) : AdminOutcome × List UserDoc :=
  match db.find? (fun v => v.id == targetId) with
  | none => (.userNotFound, db)
  | some target =>
    if actor.role == Role.admin && !(objIdEquals actor.organization target.organization) then
      (.crossOrganization, db)
    else if actor.id == target.id &&
        (action == AdminAction.deactivate || action == AdminAction.reject) then
      (.selfActionForbidden, db)
    else
      let t' := applyAdminAction actor target action now
      (.done t', db.map fun v => if v.id == target.id then t' else v)

/-! ### updateAttendance / deleteAttendance (UserController.js 958-1042) -/

/-- A value assigned onto a mongoose document property. -/
inductive FieldVal
  | str (s : String)
  | bool (b : Bool)
  | uid (u : UserId)
  | time (t : Time)
deriving DecidableEq, Repr

/-- An in-memory mongoose Attendance document: the typed schema fields plus any
properties assigned under names that are not schema paths.  Under the default
strict mode such properties live only on the JS object: `save` persists the
schema fields and drops the rest. -/
structure AttendanceDoc where
  fields : AttEvent
  nonSchema : List (String × FieldVal) := []
deriving DecidableEq, Repr

/-- Assignment `doc.name = v` for a name that is not a path of AttendanceSchema
(the proof obligation keeps the modelling honest: each call site must show its
name is absent from attendanceSchemaPaths). -/
def AttendanceDoc.setNonSchemaPath (d : AttendanceDoc) (name : String) (v : FieldVal)
    (_h : attendanceSchemaPaths.contains name = false) : AttendanceDoc :=
  { d with nonSchema := (name, v) :: d.nonSchema }

/-- `doc.save()` in strict mode: only schema paths reach the store. -/
def AttendanceDoc.save (d : AttendanceDoc) : AttEvent := d.fields

inductive UpdateResult
  | crossOrganization
  | success
deriving DecidableEq, Repr

/-- updateAttendance (UserController.js 958-1005) on a record already found by id:
an org-scoped admin may only touch records of their own organization (403);
otherwise the handler assigns `note`, `isApproved`, `modifiedBy` and
`modifiedAt` - none of which is a path of AttendanceSchema (the schema fields
are `notes` and `status`, and there are no modified* paths) - and saves.  The
returned event is the persisted document. -/
def updateAttendance (actor : UserDoc) (a : AttEvent) (note : Option String)
    (isApproved : Option Bool) (now : Time) : UpdateResult × AttEvent :=
  if actor.role == Role.admin && !(objIdEquals actor.organization a.organization) then
    (.crossOrganization, a)
  else
    let doc : AttendanceDoc := { fields := a }
    let doc := match note with
               | some s => doc.setNonSchemaPath "note" (.str s) (by decide)
               | none => doc
    let doc := match isApproved with
               | some b => doc.setNonSchemaPath "isApproved" (.bool b) (by decide)
               | none => doc
    let doc := doc.setNonSchemaPath "modifiedBy" (.uid actor.id) (by decide)
    let doc := doc.setNonSchemaPath "modifiedAt" (.time now) (by decide)
    (.success, doc.save)

inductive DeleteResult
  | crossOrganization
  | deleted
deriving DecidableEq, Repr

/-- deleteAttendance (UserController.js 1010-1042) on a record already found by
id: same organization guard, then findByIdAndDelete removes that one document
(documents in the store are distinct, so List.erase removes exactly it). -/
def deleteAttendance (actor : UserDoc) (a : AttEvent) (db : List AttEvent) :
    DeleteResult × List AttEvent :=
  if actor.role == Role.admin && !(objIdEquals actor.organization a.organization) then
    (.crossOrganization, db)
  else
    (.deleted, db.erase a)

/-! ### getOrganizationUsers (src/unnamed/part_005 292-...) -/

inductive OrgUsersOutcome
  | orgNotFound
  | accessDenied
  | ok (users : List UserDoc)
deriving DecidableEq, Repr

/-- getOrganizationUsers: finds the organization, then denies access unless the
caller is a super-admin, or an admin whose own organization equals the target
(`req.user.role !== 'super-admin' && (req.user.role !== 'admin' ||
!req.user.organization?.equals(organization._id))`).  The success branch is the
base query `\x7b organization: id \x7d` (the request's optional department,
role, activity, search and pagination refinements are absent here). -/
def getOrganizationUsers (actor : UserDoc) (orgs : List Org) (users : List UserDoc)
    (oid : OrgId) : OrgUsersOutcome :=
  match orgs.find? (fun o => o.id == oid) with
  | none => .orgNotFound
  | some org =>
    if !(actor.role == Role.superAdmin) &&
        (!(actor.role == Role.admin) || !(objIdEquals actor.organization (some org.id))) then
      .accessDenied
    else
      .ok (users.filter fun v => v.organization == some oid)

/-! ### resetPassword (src/unnamed/part_004 628-...) -/

/-- The findOne filter of resetPassword: the stored token hash equals the sha256
of the submitted token and the expiry is strictly in the future
(`resetPasswordExpires: \x7b $gt: Date.now() \x7d`). -/
def resetTokenMatch (sha256 : String → String) (token : String) (now : Time)
    (v : UserDoc) : Bool :=
  v.resetPasswordToken == some (sha256 token) &&
    match v.resetPasswordExpires with
    | some e => decide (now < e)
    | none => false

inductive ResetOutcome
  | validationError
  | tokenInvalidOrExpired
  | success
deriving DecidableEq, Repr

/-- resetPassword (PATCH /api/auth/reset-password/:token): validates the body
(both passwords present - the empty string is the falsy value - equal, and at
least 6 characters), finds the user whose stored hash matches the hashed token
with an unexpired window, then stores the new password, clears the token and
expiry and resets the lockout state.  (The pre-save bcrypt hashing of the new
password is not modelled - no claim touches it.) -/
def resetPassword (sha256 : String → String) (db : List UserDoc) (token pw confirm : String)
    (now : Time) : ResetOutcome × List UserDoc :=
  if pw == "" || confirm == "" then (.validationError, db)
  else if !(pw == confirm) then (.validationError, db)
  else if pw.length < 6 then (.validationError, db)
  else
    match db.find? (resetTokenMatch sha256 token now) with
    | none => (.tokenInvalidOrExpired, db)
    | some u =>
      let u' := { u with password := pw, resetPasswordToken := none,
                         resetPasswordExpires := none, loginAttempts := 0,
                         lockUntil := none }
      (.success, db.map fun v => if v.id == u.id then u' else v)

/-! ### getOrganizationByInviteCode (src/unnamed/part_005 540-...) -/

inductive InviteResult
  | invalidInviteCode
  | found (o : Org)
deriving DecidableEq, Repr

/-- getOrganizationByInviteCode: `Organization.findOne(\x7b inviteCode,
isActive: true \x7d)`; a miss is the 404 'Invalid invite code or organization
not found'. -/
def getOrganizationByInviteCode (orgs : List Org) (code : String) : InviteResult :=
  match orgs.find? (fun o => o.inviteCode == code && o.isActive) with
  | none => .invalidInviteCode
  | some o => .found o

/-! ### Spec-side state of the attendance day (section 4.2 of the spec)

The spec derives the per-day state from the day's event set: an open check-in
exists when the most recent check-in is not closed by a later check-out.  The
predicates below phrase this as the existence of a check-in that is at least as
recent as every check-in and strictly more recent than every check-out of the
day (equivalently: lastCheckIn exists and lastCheckOut is absent or older), and
dually for the closed state. -/

/-- An open check-in exists among the day's events: some check-in is at least as
recent as every check-in and strictly more recent than every check-out (so in
particular either no check-out exists or the most recent check-out is strictly
older than the most recent check-in). -/
def openCheckInState (l : List AttEvent) : Prop :=
  ∃ e ∈ l, e.type = AttType.checkIn ∧
    ∀ x ∈ l, (x.type = AttType.checkIn → x.checkInTime ≤ e.checkInTime) ∧
             (x.type = AttType.checkOut → x.checkInTime < e.checkInTime)

/-- No open check-in exists to close: either the day has no check-in at all, or
some check-out is at least as recent as every check-out and strictly more
recent than every check-in (the most recent check-out already closes the most
recent check-in). -/
def noOpenCheckInState (l : List AttEvent) : Prop :=
  (∀ x ∈ l, x.type ≠ AttType.checkIn) ∨
  ∃ e ∈ l, e.type = AttType.checkOut ∧
    ∀ x ∈ l, (x.type = AttType.checkOut → x.checkInTime ≤ e.checkInTime) ∧
             (x.type = AttType.checkIn → x.checkInTime < e.checkInTime)

instance (l : List AttEvent) : Decidable (openCheckInState l) := by
  unfold openCheckInState; infer_instance

instance (l : List AttEvent) : Decidable (noOpenCheckInState l) := by
  unfold noOpenCheckInState; infer_instance

/-! ### Helper lemmas about the sorted day list -/

theorem find?_type_eq_none_iff (l : List AttEvent) (t : AttType) :
    l.find? (fun x => x.type == t) = none ↔ ∀ x ∈ l, x.type ≠ t := by
  rw [List.find?_eq_none]
  constructor
  · intro h x hx
    have := h x hx
    simpa using this
  · intro h x hx
    simpa using h x hx

/-- On a list sorted by descending checkInTime, `find?` for a type returns an
event of that type whose checkInTime bounds every event of that type. -/
theorem find?_type_sorted_max {l : List AttEvent} {t : AttType} {e : AttEvent}
    (hs : l.Sorted byCheckInDesc) (hf : l.find? (fun x => x.type == t) = some e) :
    e ∈ l ∧ e.type = t ∧ ∀ x ∈ l, x.type = t → x.checkInTime ≤ e.checkInTime := by
  induction l with
  | nil => simp at hf
  | cons a tl ih =>
    rw [List.sorted_cons] at hs
    by_cases ha : a.type = t
    · rw [List.find?_cons_of_pos _ (by simpa using ha)] at hf
      cases hf
      refine ⟨List.mem_cons_self _ _, ha, ?_⟩
      intro x hx _
      rcases List.mem_cons.mp hx with rfl | hx
      · exact le_refl _
      · exact hs.1 x hx
    · rw [List.find?_cons_of_neg _ (by simpa using ha)] at hf
      obtain ⟨hmem, hty, hmax⟩ := ih hs.2 hf
      refine ⟨List.mem_cons_of_mem _ hmem, hty, ?_⟩
      intro x hx hxt
      rcases List.mem_cons.mp hx with rfl | hx
      · exact absurd hxt ha
      · exact hmax x hx hxt

theorem dayEvents_sorted (db : List AttEvent) (uid : UserId) (startOfDay : Time) :
    (dayEvents db uid startOfDay).Sorted byCheckInDesc :=
  List.sorted_insertionSort byCheckInDesc _

/-- The check-in guard of markAttendance holds exactly when the spec-side open
check-in state holds, on any list sorted by descending checkInTime. -/
theorem checkInBlocked_iff {l : List AttEvent} (hs : l.Sorted byCheckInDesc) :
    checkInBlocked l = true ↔ openCheckInState l := by
  constructor
  · intro hb
    unfold checkInBlocked at hb
    rcases hci : lastCheckIn l with _ | ci
    · rw [hci] at hb; simp at hb
    · obtain ⟨hcimem, hcity, hcimax⟩ := find?_type_sorted_max hs hci
      rcases hco : lastCheckOut l with _ | co
      · have hnoco := (find?_type_eq_none_iff l AttType.checkOut).mp hco
        exact ⟨ci, hcimem, hcity, fun x hx =>
          ⟨fun hxt => hcimax x hx hxt, fun hxt => absurd hxt (hnoco x hx)⟩⟩
      · rw [hci, hco] at hb
        have hlt : co.checkInTime < ci.checkInTime := by simpa using hb
        obtain ⟨_, _, hcomax⟩ := find?_type_sorted_max hs hco
        exact ⟨ci, hcimem, hcity, fun x hx =>
          ⟨fun hxt => hcimax x hx hxt,
           fun hxt => lt_of_le_of_lt (hcomax x hx hxt) hlt⟩⟩
  · rintro ⟨e, hemem, hety, hmax⟩
    unfold checkInBlocked
    rcases hci : lastCheckIn l with _ | ci
    · exact absurd hety ((find?_type_eq_none_iff l AttType.checkIn).mp hci e hemem)
    · obtain ⟨hcimem, hcity, hcimax⟩ := find?_type_sorted_max hs hci
      rcases hco : lastCheckOut l with _ | co
      · simp
      · obtain ⟨hcomem, hcoty, _⟩ := find?_type_sorted_max hs hco
        have h1 : co.checkInTime < e.checkInTime := (hmax co hcomem).2 hcoty
        have h2 : e.checkInTime ≤ ci.checkInTime := hcimax e hemem hety
        simpa using lt_of_lt_of_le h1 h2

/-- The check-out guard of markAttendance holds exactly when the spec-side
closed state holds, on any list sorted by descending checkInTime. -/
theorem checkOutBlocked_iff {l : List AttEvent} (hs : l.Sorted byCheckInDesc) :
    checkOutBlocked l = true ↔ noOpenCheckInState l := by
  constructor
  · intro hb
    unfold checkOutBlocked at hb
    rcases hci : lastCheckIn l with _ | ci
    · exact Or.inl ((find?_type_eq_none_iff l AttType.checkIn).mp hci)
    · obtain ⟨hcimem, hcity, hcimax⟩ := find?_type_sorted_max hs hci
      rcases hco : lastCheckOut l with _ | co
      · rw [hci, hco] at hb; simp at hb
      · rw [hci, hco] at hb
        have hlt : ci.checkInTime < co.checkInTime := by simpa using hb
        obtain ⟨hcomem, hcoty, hcomax⟩ := find?_type_sorted_max hs hco
        exact Or.inr ⟨co, hcomem, hcoty, fun x hx =>
          ⟨fun hxt => hcomax x hx hxt,
           fun hxt => lt_of_le_of_lt (hcimax x hx hxt) hlt⟩⟩
  · intro h
    unfold checkOutBlocked
    rcases hci : lastCheckIn l with _ | ci
    · simp
    · obtain ⟨hcimem, hcity, hcimax⟩ := find?_type_sorted_max hs hci
      rcases h with hnone | ⟨e, hemem, hety, hmax⟩
      · exact absurd hcity (hnone ci hcimem)
      · rcases hco : lastCheckOut l with _ | co
        · exact absurd hety ((find?_type_eq_none_iff l AttType.checkOut).mp hco e hemem)
        · obtain ⟨_, _, hcomax⟩ := find?_type_sorted_max hs hco
          have h1 : ci.checkInTime < e.checkInTime := (hmax ci hcimem).2 hcity
          have h2 : e.checkInTime ≤ co.checkInTime := hcomax e hemem hety
          simpa using lt_of_lt_of_le h1 h2

/-! ### Claim C3 -/

/-- C3: for every check-out completed through the Attendance model's markCheckOut
on an event whose overtime still has its schema default 0, the derived metrics
satisfy workingHours = max(0, (checkOutTime - checkInTime in minutes) - breakTime)
and overtime = workingHours - 480 when workingHours exceeds 480 minutes, 0
otherwise; in particular checkIn 09:00, checkOut 18:00, breakTime 60 yields
workingHours 480 and overtime 0, and checkIn 09:00, checkOut 19:30, breakTime 30
yields workingHours 600 and overtime 120 (times as milliseconds of the day). -/
theorem markCheckOut_metrics :
    (∀ (a : AttEvent) (t : Time), a.overtime = 0 →
      (markCheckOut a t).workingHours =
        max 0 (Int.fdiv (t - a.checkInTime) (1000 * 60) - a.breakTime) ∧
      (markCheckOut a t).overtime =
        (if 480 < (markCheckOut a t).workingHours
         then (markCheckOut a t).workingHours - 480 else 0)) ∧
    ((markCheckOut { user := 0, organization := none, date := 0,
                     checkInTime := 32400000, type := AttType.checkIn,
                     breakTime := 60 } 64800000).workingHours = 480 ∧
     (markCheckOut { user := 0, organization := none, date := 0,
                     checkInTime := 32400000, type := AttType.checkIn,
                     breakTime := 60 } 64800000).overtime = 0) ∧
    ((markCheckOut { user := 0, organization := none, date := 0,
                     checkInTime := 32400000, type := AttType.checkIn,
                     breakTime := 30 } 70200000).workingHours = 600 ∧
     (markCheckOut { user := 0, organization := none, date := 0,
                     checkInTime := 32400000, type := AttType.checkIn,
                     breakTime := 30 } 70200000).overtime = 120) := by
  refine ⟨?_, by decide, by decide⟩
  intro a t h
  simp only [markCheckOut, calculateWorkingHours]
  by_cases hgt : max 0 (Int.fdiv (t - a.checkInTime) (1000 * 60) - a.breakTime) > 8 * 60
  · rw [if_pos hgt]
    exact ⟨rfl, by rw [if_pos (by simpa using hgt)]; norm_num⟩
  · rw [if_neg hgt]
    refine ⟨rfl, ?_⟩
    rw [if_neg (by simpa using hgt)]
    exact h

/-- Witness for C3: the general part of markCheckOut_metrics evaluated on the
first concrete example. -/
theorem markCheckOut_metrics_witness :
    (markCheckOut { user := 0, organization := none, date := 0,
                    checkInTime := 32400000, type := AttType.checkIn,
                    breakTime := 60 } 64800000).workingHours =
      max 0 (Int.fdiv ((64800000 : Int) - 32400000) (1000 * 60) - 60) ∧
    (markCheckOut { user := 0, organization := none, date := 0,
                    checkInTime := 32400000, type := AttType.checkIn,
                    breakTime := 60 } 64800000).overtime =
      (if 480 < (markCheckOut { user := 0, organization := none, date := 0,
                                checkInTime := 32400000, type := AttType.checkIn,
                                breakTime := 60 } 64800000).workingHours
       then (markCheckOut { user := 0, organization := none, date := 0,
                            checkInTime := 32400000, type := AttType.checkIn,
                            breakTime := 60 } 64800000).workingHours - 480 else 0) :=
  markCheckOut_metrics.1
    { user := 0, organization := none, date := 0, checkInTime := 32400000,
      type := AttType.checkIn, breakTime := 60 } 64800000 rfl

/-! ### Claim C10 -/

/-- Counterexample to C10 as stated: a fresh user (no stored descriptors,
faceEnrolled false) who successfully adds one face descriptor through
addFaceDescriptor still has faceEnrolled = false, so a single stored descriptor
does not set the flag. -/
theorem addFaceDescriptor_single_descriptor_not_enrolled :
    (UserDoc.addFaceDescriptor { } [1]).faceEnrolled = false ∧
    (UserDoc.addFaceDescriptor { } [1]).faceDescriptors.length = 1 := by decide

/-- C10 (amended): addFaceDescriptor marks the user enrolled once at least three
descriptors are stored: after a successful descriptor addition, faceEnrolled is
true exactly when the stored descriptor count has reached 3 or the flag was
already true. -/
theorem addFaceDescriptor_enrolls_at_three (u : UserDoc) (d : List Int) :
    (u.addFaceDescriptor d).faceEnrolled =
      (decide (3 ≤ u.faceDescriptors.length + 1) || u.faceEnrolled) := by
  simp only [UserDoc.addFaceDescriptor, List.length_append, List.length_singleton]
  by_cases h : 3 ≤ u.faceDescriptors.length + 1
  · rw [if_pos (by simpa using h)]
    simp [h]
  · rw [if_neg (by simpa using h)]
    simp [h]

/-! ### Claim C5 -/

/-- State of a fresh account after four consecutive failed password checks, all
at time 0. -/
def fourFailedAttempts : UserDoc :=
  (findByCredentials
    ((findByCredentials
      ((findByCredentials
        ((findByCredentials ({ } : UserDoc) false 0).2) false 0).2) false 0).2) false 0).2

/-- Counterexample to C5 as stated: on the 5th consecutive failed attempt the
response is InvalidCredentials, not AccountLocked - the lock (2 hours from the
5th failure) is only set by that call, and the locked check runs before the
password comparison, so only attempts from the 6th onward see AccountLocked. -/
theorem fifth_attempt_response_not_locked :
    fourFailedAttempts.loginAttempts = 4 ∧
    (findByCredentials fourFailedAttempts false 0).1 = AuthResult.invalidCredentials ∧
    (findByCredentials fourFailedAttempts false 0).1 ≠ AuthResult.accountLocked ∧
    (findByCredentials fourFailedAttempts false 0).2.lockUntil = some 7200000 := by decide

/-- C5 (amended): 5 consecutive failed password checks lock the account for 2
hours from the 5th failure; while the lock timestamp is in the future,
findByCredentials fails with AccountLocked immediately without consuming an
attempt (in particular a 6th attempt with the correct password fails with
AccountLocked); the 5th attempt itself - the one that sets the lock - fails
with InvalidCredentials; a successful login before reaching 5 resets the
counter to 0; a failure after an expired lock restarts the counter at 1. -/
theorem findByCredentials_lockout_policy :
    (∀ (u : UserDoc) (pwOk : Bool) (now : Time), u.isLocked now = true →
      findByCredentials u pwOk now = (.accountLocked, u)) ∧
    (∀ (u : UserDoc) (now : Time), u.lockUntil = none → u.loginAttempts = 4 →
      findByCredentials u false now =
        (.invalidCredentials,
         { u with loginAttempts := 5, lockUntil := some (now + 2 * 60 * 60 * 1000) })) ∧
    (∀ (u : UserDoc) (now : Time), u.isLocked now = false →
      (findByCredentials u true now).1 = .success ∧
      (findByCredentials u true now).2.loginAttempts = 0) ∧
    (∀ (u : UserDoc) (l : Time) (now : Time), u.lockUntil = some l → l < now →
      findByCredentials u false now =
        (.invalidCredentials, { u with loginAttempts := 1, lockUntil := none })) := by
  refine ⟨?_, ?_, ?_, ?_⟩
  · intro u pwOk now h
    simp [findByCredentials, h]
  · intro u now h1 h2
    simp [findByCredentials, UserDoc.isLocked, UserDoc.incLoginAttempts, h1, h2]
  · intro u now h
    by_cases ha : u.loginAttempts > 0
    · simp [findByCredentials, h, ha]
    · have ha0 : u.loginAttempts = 0 := by omega
      simp [findByCredentials, h, ha, ha0]
  · intro u l now h1 h2
    have hl : u.isLocked now = false := by
      unfold UserDoc.isLocked
      rw [h1]
      exact decide_eq_false (lt_asymm h2)
    simp [findByCredentials, UserDoc.incLoginAttempts, hl, h1, h2]

/-- Witness for C5 (amended): the 5th-failure conjunct evaluated on a concrete
account with 4 recorded attempts at time 100. -/
theorem findByCredentials_lockout_policy_witness :
    findByCredentials ({ loginAttempts := 4 } : UserDoc) false 100 =
      (.invalidCredentials,
       { ({ loginAttempts := 4 } : UserDoc) with
           loginAttempts := 5, lockUntil := some (100 + 2 * 60 * 60 * 1000) }) :=
  findByCredentials_lockout_policy.2.1 { loginAttempts := 4 } 100 rfl rfl

/-! ### Claims C1, C2, C4: the markAttendance state machine -/

/-- C1: for an approved, active user requesting a check-in, markAttendance fails
with AlreadyCheckedIn and stores nothing when an open check-in exists among the
user's events of the current calendar day (a check-in exists and either no
check-out exists or the most recent check-out is older than the most recent
check-in); otherwise it appends a new check-in event at the current time, or at
the offlineTimestamp when the request is flagged offline. -/
theorem markAttendance_checkIn_transition
    (localMidnight : Time → Time) (u : UserDoc) (req : MarkReq) (db : List AttEvent)
    (now : Time) (hap : u.isApproved = true) (hac : u.isActive = true)
    (hty : req.type = ReqType.checkIn) :
    (openCheckInState (dayEvents db u.id (localMidnight now)) →
      markAttendance localMidnight u req db now = (.alreadyCheckedIn, db)) ∧
    (¬ openCheckInState (dayEvents db u.id (localMidnight now)) →
      ∃ e, markAttendance localMidnight u req db now = (.created e, db ++ [e]) ∧
        e.type = AttType.checkIn ∧
        (req.isOffline = false → e.checkInTime = now) ∧
        (∀ ts, req.isOffline = true → req.offlineTimestamp = some ts →
          e.checkInTime = ts)) := by
  have hs := dayEvents_sorted db u.id (localMidnight now)
  constructor
  · intro hopen
    have hb : checkInBlocked (dayEvents db u.id (localMidnight now)) = true :=
      (checkInBlocked_iff hs).mpr hopen
    simp [markAttendance, hap, hac, hty, hb]
  · intro hopen
    have hb : checkInBlocked (dayEvents db u.id (localMidnight now)) = false :=
      Bool.eq_false_iff.mpr fun hc => hopen ((checkInBlocked_iff hs).mp hc)
    refine ⟨newAttendanceEvent localMidnight u req now,
      by simp [markAttendance, hap, hac, hty, hb],
      by simp [newAttendanceEvent, hty], ?_, ?_⟩
    · intro hoff
      simp [newAttendanceEvent, hoff]
    · intro ts hoff hts
      simp [newAttendanceEvent, hoff, hts]

/-- Witness for C1: a fresh day with no events has no open check-in, so a
check-in at time 5 is created (online request, hence at the current time). -/
theorem markAttendance_checkIn_transition_witness :
    ∃ e, markAttendance (fun _ => 0) { isApproved := true } { type := ReqType.checkIn }
          [] 5 = (.created e, [] ++ [e]) ∧
      e.type = AttType.checkIn ∧
      (({ type := ReqType.checkIn } : MarkReq).isOffline = false → e.checkInTime = 5) ∧
      (∀ ts, ({ type := ReqType.checkIn } : MarkReq).isOffline = true →
        ({ type := ReqType.checkIn } : MarkReq).offlineTimestamp = some ts →
        e.checkInTime = ts) :=
  (markAttendance_checkIn_transition (fun _ => 0) { isApproved := true }
    { type := ReqType.checkIn } [] 5 rfl rfl rfl).2 (by decide)

/-- C2: for an approved, active user requesting a check-out, markAttendance fails
with NoOpenCheckIn and stores nothing when among that user's events of the
current calendar day there is no check-in, or the most recent check-out already
closes the most recent check-in; otherwise a check-out event is created. -/
theorem markAttendance_checkOut_transition
    (localMidnight : Time → Time) (u : UserDoc) (req : MarkReq) (db : List AttEvent)
    (now : Time) (hap : u.isApproved = true) (hac : u.isActive = true)
    (hty : req.type = ReqType.checkOut) :
    (noOpenCheckInState (dayEvents db u.id (localMidnight now)) →
      markAttendance localMidnight u req db now = (.noOpenCheckIn, db)) ∧
    (¬ noOpenCheckInState (dayEvents db u.id (localMidnight now)) →
      ∃ e, markAttendance localMidnight u req db now = (.created e, db ++ [e]) ∧
        e.type = AttType.checkOut) := by
  have hs := dayEvents_sorted db u.id (localMidnight now)
  constructor
  · intro hclosed
    have hb : checkOutBlocked (dayEvents db u.id (localMidnight now)) = true :=
      (checkOutBlocked_iff hs).mpr hclosed
    simp [markAttendance, hap, hac, hty, hb]
  · intro hclosed
    have hb : checkOutBlocked (dayEvents db u.id (localMidnight now)) = false :=
      Bool.eq_false_iff.mpr fun hc => hclosed ((checkOutBlocked_iff hs).mp hc)
    exact ⟨newAttendanceEvent localMidnight u req now,
      by simp [markAttendance, hap, hac, hty, hb],
      by simp [newAttendanceEvent, hty]⟩

/-- Witness for C2: a fresh day with no events trivially has no check-in, so a
check-out request is rejected with NoOpenCheckIn and the store is unchanged. -/
theorem markAttendance_checkOut_transition_witness :
    markAttendance (fun _ => 0) { isApproved := true } { type := ReqType.checkOut }
      [] 5 = (.noOpenCheckIn, []) :=
  (markAttendance_checkOut_transition (fun _ => 0) { isApproved := true }
    { type := ReqType.checkOut } [] 5 rfl rfl rfl).1 (by decide)

/-- C4 (implicit): a successful check-out through markAttendance appends a new,
separate event whose checkOutTime equals its own checkInTime (the moment of the
request for an online call), leaves every earlier stored event - in particular
the open check-in - untouched (the new store is exactly db ++ [e]), and leaves
the new event's workingHours, breakTime and overtime at their schema default 0. -/
theorem markAttendance_checkOut_newEvent
    (localMidnight : Time → Time) (u : UserDoc) (req : MarkReq) (db : List AttEvent)
    (now : Time) (hap : u.isApproved = true) (hac : u.isActive = true)
    (hty : req.type = ReqType.checkOut)
    (hopen : ¬ noOpenCheckInState (dayEvents db u.id (localMidnight now))) :
    ∃ e, markAttendance localMidnight u req db now = (.created e, db ++ [e]) ∧
      e.checkOutTime = some e.checkInTime ∧
      (req.isOffline = false → e.checkInTime = now) ∧
      e.workingHours = 0 ∧ e.breakTime = 0 ∧ e.overtime = 0 := by
  have hs := dayEvents_sorted db u.id (localMidnight now)
  have hb : checkOutBlocked (dayEvents db u.id (localMidnight now)) = false :=
    Bool.eq_false_iff.mpr fun hc => hopen ((checkOutBlocked_iff hs).mp hc)
  refine ⟨newAttendanceEvent localMidnight u req now,
    by simp [markAttendance, hap, hac, hty, hb],
    by simp [newAttendanceEvent, hty], ?_, rfl, rfl, rfl⟩
  intro hoff
  simp [newAttendanceEvent, hoff]

/-- Witness for C4: with an open check-in at time 3 on the day, a check-out at
time 9 creates a separate event mirroring its own creation moment, with zero
metrics, and appends it after the untouched check-in. -/
theorem markAttendance_checkOut_newEvent_witness :
    ∃ e, markAttendance (fun _ => 0) { isApproved := true } { type := ReqType.checkOut }
          [{ user := 0, organization := none, date := 0, checkInTime := 3,
             type := AttType.checkIn }] 9 =
        (.created e,
         [{ user := 0, organization := none, date := 0, checkInTime := 3,
            type := AttType.checkIn }] ++ [e]) ∧
      e.checkOutTime = some e.checkInTime ∧
      (({ type := ReqType.checkOut } : MarkReq).isOffline = false → e.checkInTime = 9) ∧
      e.workingHours = 0 ∧ e.breakTime = 0 ∧ e.overtime = 0 :=
  markAttendance_checkOut_newEvent (fun _ => 0) { isApproved := true }
    { type := ReqType.checkOut }
    [{ user := 0, organization := none, date := 0, checkInTime := 3,
       type := AttType.checkIn }] 9 rfl rfl rfl (by decide)

/-! ### Claim C6: cross-tenant isolation -/

/-- C6: an admin of organization A invoking any organization-scoped admin
operation - performAdminAction on a user, listing an organization's users,
updating or deleting an attendance record - against a target owned by a
different organization B receives the 403 authorization error and the target
(user store, attendance record, attendance store) is unchanged, regardless of
the valid admin role. -/
theorem cross_org_admin_rejected
    (actor target : UserDoc) (a : AttEvent) (db : List UserDoc) (adb : List AttEvent)
    (orgs : List Org) (users : List UserDoc) (org : Org)
    (action : AdminAction) (now : Time) (note : Option String) (ia : Option Bool)
    (oa ob : OrgId)
    (hrole : actor.role = Role.admin)
    (hA : actor.organization = some oa)
    (hfind : db.find? (fun v => v.id == target.id) = some target)
    (hB1 : target.organization = some ob)
    (hB2 : a.organization = some ob)
    (horg : orgs.find? (fun o => o.id == org.id) = some org)
    (hB3 : org.id = ob)
    (hne : oa ≠ ob) :
    performAdminAction actor db target.id action now = (.crossOrganization, db) ∧
    updateAttendance actor a note ia now = (.crossOrganization, a) ∧
    deleteAttendance actor a adb = (.crossOrganization, adb) ∧
    getOrganizationUsers actor orgs users org.id = .accessDenied := by
  have hoe : objIdEquals actor.organization (some ob) = false := by
    rw [hA]
    simpa [objIdEquals] using hne
  refine ⟨?_, ?_, ?_, ?_⟩
  · simp [performAdminAction, hfind, hrole, hB1, hoe]
  · simp [updateAttendance, hrole, hB2, hoe]
  · simp [deleteAttendance, hrole, hB2, hoe]
  · have hoe' : objIdEquals actor.organization (some org.id) = false := by
      rw [hB3]; exact hoe
    simp [getOrganizationUsers, horg, hrole, hoe']

/-- Witness for C6: an admin of organization 10 acting on a user, an attendance
record and a user listing of organization 20. -/
theorem cross_org_admin_rejected_witness :
    performAdminAction { id := 1, role := Role.admin, organization := some 10 }
        [{ id := 2, organization := some 20 }] 2 AdminAction.approve 50 =
      (.crossOrganization, [{ id := 2, organization := some 20 }]) ∧
    updateAttendance { id := 1, role := Role.admin, organization := some 10 }
        { user := 2, organization := some 20, date := 0, checkInTime := 0,
          type := AttType.checkIn } (some "x") (some true) 50 =
      (.crossOrganization,
       { user := 2, organization := some 20, date := 0, checkInTime := 0,
         type := AttType.checkIn }) ∧
    deleteAttendance { id := 1, role := Role.admin, organization := some 10 }
        { user := 2, organization := some 20, date := 0, checkInTime := 0,
          type := AttType.checkIn } [] =
      (.crossOrganization, []) ∧
    getOrganizationUsers { id := 1, role := Role.admin, organization := some 10 }
        [{ id := 20 }] [] 20 = .accessDenied :=
  cross_org_admin_rejected
    { id := 1, role := Role.admin, organization := some 10 }
    { id := 2, organization := some 20 }
    { user := 2, organization := some 20, date := 0, checkInTime := 0,
      type := AttType.checkIn }
    [{ id := 2, organization := some 20 }] [] [{ id := 20 }] []
    { id := 20 } AdminAction.approve 50 (some "x") (some true) 10 20
    rfl rfl (by decide) rfl rfl (by decide) rfl (by decide)

/-! ### Claim C7: updateAttendance persists nothing (code bug) -/

/-- C7 evaluated against the code: whenever the organization guard passes,
updateAttendance reports success but the persisted attendance record is exactly
the original - the handler assigns `note`, `isApproved`, `modifiedBy` and
`modifiedAt`, none of which is a path of AttendanceSchema (the schema's fields
are `notes` and `status`, and it has no modified* paths), so mongoose's strict
mode drops all four on save and neither the notes, nor the approval status, nor
any modifiedBy/modifiedAt stamp ever reaches the store, contradicting the
claim's stamping requirement. -/
theorem updateAttendance_persists_nothing
    (actor : UserDoc) (a : AttEvent) (note : Option String) (ia : Option Bool)
    (now : Time)
    (hauth : (actor.role == Role.admin &&
      !(objIdEquals actor.organization a.organization)) = false) :
    updateAttendance actor a note ia now = (.success, a) := by
  cases note <;> cases ia <;>
    simp [updateAttendance, hauth, AttendanceDoc.save, AttendanceDoc.setNonSchemaPath]

/-- Witness for C7: a same-organization admin submitting a note and an approval
flag; the stored record is returned unchanged. -/
theorem updateAttendance_persists_nothing_witness :
    updateAttendance { id := 1, role := Role.admin, organization := some 10 }
        { user := 2, organization := some 10, date := 0, checkInTime := 0,
          type := AttType.checkIn } (some "Late arrival") (some true) 50 =
      (.success,
       { user := 2, organization := some 10, date := 0, checkInTime := 0,
         type := AttType.checkIn }) :=
  updateAttendance_persists_nothing
    { id := 1, role := Role.admin, organization := some 10 }
    { user := 2, organization := some 10, date := 0, checkInTime := 0,
      type := AttType.checkIn } (some "Late arrival") (some true) 50 (by decide)

/-! ### Claim C8: password-reset token single use and expiry -/

/-- With a valid body (password present, equal to its confirmation and at least
6 characters), resetPassword reduces to the token lookup. -/
theorem resetPassword_valid_body (sha256 : String → String) (db : List UserDoc)
    (token pw : String) (now : Time)
    (hpw : (pw == "") = false) (hlen : ¬ pw.length < 6) :
    resetPassword sha256 db token pw pw now =
      match db.find? (resetTokenMatch sha256 token now) with
      | none => (.tokenInvalidOrExpired, db)
      | some u =>
        (.success, db.map fun v => if v.id == u.id then
          { u with password := pw, resetPasswordToken := none,
                   resetPasswordExpires := none, loginAttempts := 0,
                   lockUntil := none } else v) := by
  simp only [resetPassword, hpw, Bool.or_self, Bool.false_eq_true, if_false,
             beq_self_eq_true, Bool.not_true, if_neg hlen]

/-- C8: a password-reset token is single-use - after one successful
resetPassword with the token, the stored token hash is cleared, so
re-submitting the same token (at any later instant) fails - and any submission
once the 10-minute window has elapsed fails even though the token value is
correct.  The hypotheses say the submitted body is valid, some user matches the
token with an unexpired window, and no other user happens to carry the same
token hash (tokens are 32 random bytes). -/
theorem resetPassword_single_use_and_expiry
    (sha256 : String → String) (db : List UserDoc) (u : UserDoc)
    (token pw : String) (issuedAt now now' : Time)
    (hpw : (pw == "") = false) (hlen : ¬ pw.length < 6)
    (hfind : db.find? (resetTokenMatch sha256 token now) = some u)
    (hother : ∀ v ∈ db, v.id ≠ u.id → v.resetPasswordToken ≠ some (sha256 token)) :
    (resetPassword sha256 db token pw pw now).1 = .success ∧
    (resetPassword sha256 (resetPassword sha256 db token pw pw now).2
      token pw pw now').1 = .tokenInvalidOrExpired ∧
    (∀ v : UserDoc, issuedAt + 10 * 60 * 1000 ≤ now' →
      (resetPassword sha256 [(UserDoc.createPasswordResetToken sha256 v token issuedAt).1]
        token pw pw now').1 = .tokenInvalidOrExpired) := by
  have hrun : resetPassword sha256 db token pw pw now =
      (.success, db.map fun v => if v.id == u.id then
        { u with password := pw, resetPasswordToken := none,
                 resetPasswordExpires := none, loginAttempts := 0,
                 lockUntil := none } else v) := by
    rw [resetPassword_valid_body sha256 db token pw now hpw hlen, hfind]
  refine ⟨by rw [hrun], ?_, ?_⟩
  · rw [hrun]
    have hnone : (db.map fun v => if v.id == u.id then
        { u with password := pw, resetPasswordToken := none,
                 resetPasswordExpires := none, loginAttempts := 0,
                 lockUntil := none } else v).find?
          (resetTokenMatch sha256 token now') = none := by
      rw [List.find?_eq_none]
      intro w hw
      rw [List.mem_map] at hw
      obtain ⟨v, hv, rfl⟩ := hw
      by_cases hid : (v.id == u.id) = true
      · simp [hid, resetTokenMatch]
      · have hid' : v.id ≠ u.id := by simpa using hid
        have hne := hother v hv hid'
        simp only [Bool.not_eq_true] at hid
        simp [hid, resetTokenMatch, hne]
    rw [resetPassword_valid_body sha256 _ token pw now' hpw hlen, hnone]
  · intro v hexp
    have hmatch : resetTokenMatch sha256 token now'
        (UserDoc.createPasswordResetToken sha256 v token issuedAt).1 = false := by
      have hd : decide (now' < issuedAt + 10 * 60 * 1000) = false :=
        decide_eq_false (not_lt.mpr hexp)
      simp [resetTokenMatch, UserDoc.createPasswordResetToken, hd]
      linarith
    have hnone : [(UserDoc.createPasswordResetToken sha256 v token issuedAt).1].find?
        (resetTokenMatch sha256 token now') = none := by
      rw [List.find?_eq_none]
      intro w hw
      rw [List.mem_singleton] at hw
      rw [hw, hmatch]
      simp
    rw [resetPassword_valid_body sha256 _ token pw now' hpw hlen, hnone]

/-- Witness for C8: a single-user store holding the hash of token "tok" with a
window open at time 0; the reset succeeds, the replay fails, and a fresh token
issued at time 0 and submitted at its 600000 ms boundary fails. -/
theorem resetPassword_single_use_and_expiry_witness :
    (resetPassword (fun s => s ++ "#")
      [{ id := 7, resetPasswordToken := some "tok#", resetPasswordExpires := some 600000 }]
      "tok" "secret1" "secret1" 0).1 = .success ∧
    (resetPassword (fun s => s ++ "#")
      (resetPassword (fun s => s ++ "#")
        [{ id := 7, resetPasswordToken := some "tok#", resetPasswordExpires := some 600000 }]
        "tok" "secret1" "secret1" 0).2
      "tok" "secret1" "secret1" 600000).1 = .tokenInvalidOrExpired ∧
    (∀ v : UserDoc, (0 : Time) + 10 * 60 * 1000 ≤ 600000 →
      (resetPassword (fun s => s ++ "#")
        [(UserDoc.createPasswordResetToken (fun s => s ++ "#") v "tok" 0).1]
        "tok" "secret1" "secret1" 600000).1 = .tokenInvalidOrExpired) :=
  resetPassword_single_use_and_expiry (fun s => s ++ "#")
    [{ id := 7, resetPasswordToken := some "tok#", resetPasswordExpires := some 600000 }]
    { id := 7, resetPasswordToken := some "tok#", resetPasswordExpires := some 600000 }
    "tok" "secret1" 0 0 600000 (by decide) (by decide) (by decide) (by decide)

/-! ### Claim C9: invite-code round-trip and shape -/

/-- C9: for an active organization, resolving its invite code returns that same
organization (given the spec's uniqueness of invite codes among the stored
organizations); a code carried by no active organization (unknown, or only
inactive holders) resolves to InvalidInviteCode; and a generated invite code is
stored on the organization, returned, and is always an 8-character
uppercase-alphanumeric string. -/
theorem inviteCode_roundtrip_and_shape
    (orgs : List Org) (org : Org) (code : String) (o : Org) (rand : Fin 8 → Fin 36) :
    (org ∈ orgs → org.isActive = true →
      (∀ o' ∈ orgs, o'.inviteCode = org.inviteCode → o'.isActive = true → o' = org) →
      getOrganizationByInviteCode orgs org.inviteCode = .found org) ∧
    ((∀ o' ∈ orgs, o'.inviteCode = code → o'.isActive = false) →
      getOrganizationByInviteCode orgs code = .invalidInviteCode) ∧
    ((o.generateInviteCode rand).1.inviteCode = (o.generateInviteCode rand).2 ∧
     (o.generateInviteCode rand).2.length = 8 ∧
     ∀ c ∈ (o.generateInviteCode rand).2.toList,
       ('A' ≤ c ∧ c ≤ 'Z') ∨ ('0' ≤ c ∧ c ≤ '9')) := by
  refine ⟨?_, ?_, rfl, ?_, ?_⟩
  · intro hmem hact huniq
    have hex : ∃ m, orgs.find?
        (fun o' => o'.inviteCode == org.inviteCode && o'.isActive) = some m :=
      Option.isSome_iff_exists.mp
        (List.find?_isSome.mpr ⟨org, hmem, by simp [hact]⟩)
    obtain ⟨m, hm⟩ := hex
    have hpm := List.find?_some hm
    rw [Bool.and_eq_true] at hpm
    have hmo : m = org :=
      huniq m (List.mem_of_find?_eq_some hm) (by simpa using hpm.1) hpm.2
    unfold getOrganizationByInviteCode
    rw [hm, hmo]
  · intro hall
    have hnone : orgs.find? (fun o' => o'.inviteCode == code && o'.isActive) = none := by
      rw [List.find?_eq_none]
      intro o' ho' hp
      rw [Bool.and_eq_true] at hp
      have h1 : o'.inviteCode = code := by simpa using hp.1
      rw [hall o' ho' h1] at hp
      exact absurd hp.2 (by simp)
    unfold getOrganizationByInviteCode
    rw [hnone]
  · simp [Org.generateInviteCode, String.length]
  · intro c hc
    have hmem : c ∈ inviteCodeChars := by
      simp only [Org.generateInviteCode, String.toList] at hc
      rw [List.mem_map] at hc
      obtain ⟨i, _, rfl⟩ := hc
      exact List.get_mem _ _ _
    have hall : ∀ x ∈ inviteCodeChars,
        ('A' ≤ x ∧ x ≤ 'Z') ∨ ('0' ≤ x ∧ x ≤ '9') := by decide
    exact hall c hmem

/-- Concrete organization used by the C9 witness. -/
def acmeOrg : Org := { id := 1, name := "Acme", inviteCode := "ABCD1234", isActive := true }

/-- Concrete random draws (all zero) used by the C9 witness. -/
def zeroDraws : Fin 8 → Fin 36 := fun _ => 0

/-- Witness for C9: a one-organization store with active code "ABCD1234": the
code resolves back to its organization, an unheld code fails, and a generated
code (all draws 0) has the stated shape. -/
theorem inviteCode_roundtrip_and_shape_witness :
    getOrganizationByInviteCode [acmeOrg] acmeOrg.inviteCode = .found acmeOrg ∧
    getOrganizationByInviteCode [acmeOrg] "ZZZZZZZZ" = .invalidInviteCode ∧
    ((acmeOrg.generateInviteCode zeroDraws).1.inviteCode =
        (acmeOrg.generateInviteCode zeroDraws).2 ∧
     (acmeOrg.generateInviteCode zeroDraws).2.length = 8 ∧
     ∀ c ∈ (acmeOrg.generateInviteCode zeroDraws).2.toList,
       ('A' ≤ c ∧ c ≤ 'Z') ∨ ('0' ≤ c ∧ c ≤ '9')) :=
  ⟨(inviteCode_roundtrip_and_shape [acmeOrg] acmeOrg "ZZZZZZZZ" acmeOrg zeroDraws).1
      (by decide) rfl (by decide),
   (inviteCode_roundtrip_and_shape [acmeOrg] acmeOrg "ZZZZZZZZ" acmeOrg zeroDraws).2.1
      (by decide),
   (inviteCode_roundtrip_and_shape [acmeOrg] acmeOrg "ZZZZZZZZ" acmeOrg zeroDraws).2.2⟩

end FaceRec
